import Mathlib

/-
Verification development for the SilentCheckmate multiplayer chess server.

The program under study is the entry-point server implementation
(src/server/index.js, exported through createServer and started by the
server entry file): an in-memory session registry keyed by game id, a set
of per-connection websocket handlers (handleCreateGame, handleJoinGame,
handleMakeMove, handleResign, handleDrawOffer, handleAcceptDraw,
handleDeclineDraw, handleLogin), a result-recording routine
(recordGameResult) backed by a PostgreSQL users / matches schema, and the
HTTP rating routes (routes.js).

The rules engine (chess.js) and the floating-point ELO formula
(calculateEloChanges) are external collaborators; they are modelled as
black-box function parameters (ChessLib and Rating below), exactly as the
specification scopes them.
-/

namespace SC

/-- Side to move, as reported by the rules oracle through chess.turn(). -/
inductive Color where
  | white
  | black
  deriving DecidableEq, Repr

/-- Lifecycle status field of a registry entry: the string values
waiting, playing and completed used by the server. -/
inductive GStatus where
  | waiting
  | playing
  | completed
  deriving DecidableEq, Repr

/-- The rules oracle (chess.js) as consumed by the server: initial
position, side to move, move application (some newFen when the candidate
is legal, none when chess.move yields no move), and the terminal
classifiers read after a move. -/
structure ChessLib where
  initFen : String
  turn : String → Color
  move : String → Option String → Option String → Option String → Option String
  isCheckmate : String → Bool
  isDraw : String → Bool

/-- One recorded move, as pushed onto game.moves. -/
structure MoveRec where
  fromSq : Option String
  toSq : Option String
  promo : Option String
  deriving DecidableEq, Repr

/-- One entry of the in-memory games registry, created by
handleCreateGame. The chess object is represented by its FEN string. -/
structure Game where
  white : String
  whiteConnected : Bool
  black : Option String
  blackConnected : Bool
  fen : String
  status : GStatus
  drawOffer : Option String
  moves : List MoveRec
  deriving DecidableEq, Repr

/-- A row of the users table: id, username, elo. -/
structure UserRow where
  uid : Nat
  username : String
  elo : Int
  deriving DecidableEq, Repr

/-- Match result tag stored in matches.result. -/
inductive GResult where
  | whiteWin
  | blackWin
  | drawRes
  deriving DecidableEq, Repr

/-- Per-player outcome fed to the rating engine: win, loss or draw. -/
inductive PRes where
  | win
  | loss
  | draw
  deriving DecidableEq, Repr

/-- The rating engine calculateEloChanges, a pure pairwise function
(userElo, opponentElo, userResult) to (userDelta, opponentDelta). The
floating-point formula itself is outside the verification boundary. -/
abbrev Rating := Int → Int → PRes → Int × Int

/-- A row of the matches table, as inserted by recordGameResult. The
game_pgn column (a string produced by the oracle) is not tracked because
no claim refers to it. -/
structure MatchRow where
  whitePlayerId : Nat
  blackPlayerId : Nat
  winnerId : Option Nat
  result : GResult
  whiteEloBefore : Int
  blackEloBefore : Int
  whiteEloChange : Int
  blackEloChange : Int
  deriving DecidableEq, Repr

/-- Lookup in the users table by username, as in
SELECT id, elo FROM users WHERE username = $1. -/
def findUser : List UserRow → String → Option UserRow
  | [], _ => none
  | r :: rest, u => if r.username = u then some r else findUser rest u

/-- Lookup of a seat in the users table: the black seat may still be
empty (a null query parameter matches no row). -/
def seatUser (users : List UserRow) (seat : Option String) : Option UserRow :=
  match seat with
  | none => none
  | some u => findUser users u

/-- The rating-update statement used by recordGameResult, POST
/elo/update and POST /matches:
UPDATE users SET elo = GREATEST(0, elo + delta) WHERE id = uid. -/
def applyEloUpdate (users : List UserRow) (uid0 : Nat) (delta : Int) : List UserRow :=
  users.map fun r => if r.uid = uid0 then { r with elo := max 0 (r.elo + delta) } else r

/-- Registration insert (routes.js /auth/register): the elo column takes
the schema default 1200. -/
def registerUser (users : List UserRow) (uid0 : Nat) (name : String) : List UserRow :=
  users ++ [{ uid := uid0, username := name, elo := 1200 }]

/-- Ratings states reachable through the write paths of the code:
registration with the default rating, and the GREATEST(0, elo + delta)
update shared by POST /elo/update, POST /matches (one update per player)
and recordGameResult (one update per seat). -/
inductive ReachableUsers : List UserRow → Prop where
  | empty : ReachableUsers []
  | register (u : List UserRow) (uid0 : Nat) (name : String) :
      ReachableUsers u → ReachableUsers (registerUser u uid0 name)
  | eloUpdate (u : List UserRow) (uid0 : Nat) (delta : Int) :
      ReachableUsers u → ReachableUsers (applyEloUpdate u uid0 delta)

/-- Lookup of games[k] in the in-memory registry. -/
def lookupGame : List (String × Game) → String → Option Game
  | [], _ => none
  | (k2, g) :: rest, k => if k2 = k then some g else lookupGame rest k

/-- Property assignment games[k] = g on the registry object. -/
def setGame : List (String × Game) → String → Game → List (String × Game)
  | [], k, g => [(k, g)]
  | (k2, g2) :: rest, k, g =>
    if k2 = k then (k, g) :: rest else (k2, g2) :: setGame rest k g

/-- Server-side mutable state relevant to the claims: the games registry
and the database tables. -/
structure SState where
  games : List (String × Game)
  users : List UserRow
  matchRows : List MatchRow
  deriving DecidableEq, Repr

/-- Outbound frames, reduced to the data the claims mention. ERROR frames
go to the submitting connection; MOVE_MADE and GAME_OVER are broadcast to
the connections of both seats. -/
inductive OutMsg where
  | errMsg (message : String)
  | loginSuccess
  | gameCreated (gid : String)
  | gameJoined (gid : String)
  | opponentJoined
  | moveMade (gameOver : Bool) (result : Option GResult)
  | gameOver (result : GResult) (reason : String)
  | drawOffered
  | drawOfferSent
  | drawDeclined
  | drawDeclineSent
  | pong
  deriving DecidableEq, Repr

/-- Effects of processing one event: the messages sent, and how many
times the recording branch of recordGameResult ran (the branch that
invokes the rating engine, inserts a match row and updates both elos). -/
structure EvOut where
  msgs : List OutMsg
  records : Nat
  deriving DecidableEq, Repr

/-- Connection-closure context available to a handler: the playerId and
gameId variables of the websocket connection. -/
structure Ctx where
  pid : Option String
  gid : Option String
  deriving DecidableEq, Repr

/-- JS a || b for string-valued fields: undefined and the empty string
are falsy. -/
def jsOr (a b : Option String) : Option String :=
  match a with
  | some x => if x = "" then b else some x
  | none => b

/-- Truthiness coercion for an optional string field. -/
def jsStr (a : Option String) : Option String :=
  jsOr a none

/-- recordGameResult: looks up both seats in the users table and skips
entirely when either seat has no row; otherwise invokes the rating engine
on the stored ratings, inserts a match row, and applies the
GREATEST(0, elo + delta) update to both players. Returns the new state
and whether the recording branch ran. -/
def recordGameResult (rating : Rating) (s : SState) (g : Game) (result : GResult) :
    SState × Bool :=
  match findUser s.users g.white, seatUser s.users g.black with
  | some w, some b =>
    let whiteRes : PRes :=
      match result with
      | .whiteWin => .win
      | .blackWin => .loss
      | .drawRes => .draw
    let d := rating w.elo b.elo whiteRes
    let winnerId : Option Nat :=
      match result with
      | .whiteWin => some w.uid
      | .blackWin => some b.uid
      | .drawRes => none
    let row : MatchRow :=
      { whitePlayerId := w.uid, blackPlayerId := b.uid, winnerId := winnerId,
        result := result, whiteEloBefore := w.elo, blackEloBefore := b.elo,
        whiteEloChange := d.1, blackEloChange := d.2 }
    let users1 := applyEloUpdate s.users w.uid d.1
    let users2 := applyEloUpdate users1 b.uid d.2
    ({ s with users := users2, matchRows := s.matchRows ++ [row] }, true)
  | _, _ => (s, false)

/-- handleLogin: sets the connection playerId from data.username, or a
generated guest name using the fresh uuid. -/
def handleLogin (c : Ctx) (username : Option String) (fresh : String) : Ctx × EvOut :=
  let p :=
    match jsStr username with
    | some u => u
    | none => "Player_" ++ fresh
  ({ c with pid := some p }, ⟨[.loginSuccess], 0⟩)

/-- handleCreateGame: requires a logged-in playerId, then registers a
fresh game with the creator on the white seat and sets the connection
gameId to the fresh id. -/
def handleCreateGame (lib : ChessLib) (s : SState) (c : Ctx) (fresh : String) :
    Ctx × SState × EvOut :=
  match c.pid with
  | none => (c, s, ⟨[.errMsg "You must log in first"], 0⟩)
  | some p =>
    let g : Game :=
      { white := p, whiteConnected := true, black := none, blackConnected := false,
        fen := lib.initFen, status := .waiting, drawOffer := none, moves := [] }
    ({ c with gid := some fresh },
     { s with games := setGame s.games fresh g },
     ⟨[.gameCreated fresh], 0⟩)

/-- handleJoinGame: requires login; the target game must exist, still be
waiting, and not be the joining players own game; on success the joiner
takes the black seat and the game becomes playing. -/
def handleJoinGame (s : SState) (c : Ctx) (target : Option String) :
    Ctx × SState × EvOut :=
  match c.pid with
  | none => (c, s, ⟨[.errMsg "You must log in first"], 0⟩)
  | some p =>
    match target with
    | none => (c, s, ⟨[.errMsg "Game not found"], 0⟩)
    | some gid =>
      match lookupGame s.games gid with
      | none => (c, s, ⟨[.errMsg "Game not found"], 0⟩)
      | some g =>
        if g.status ≠ .waiting then
          (c, s, ⟨[.errMsg "Game already in progress"], 0⟩)
        else if g.white = p then
          (c, s, ⟨[.errMsg "You cannot join your own game"], 0⟩)
        else
          let g1 := { g with black := some p, blackConnected := true,
                             status := GStatus.playing }
          ({ c with gid := some gid },
           { s with games := setGame s.games gid g1 },
           ⟨[.gameJoined gid, .opponentJoined], 0⟩)

/-- handleMakeMove: guards on the connection closure and the registry,
rejects the submitter when it does not hold the seat to move, passes the
candidate to the rules oracle (promotion normalized by || undefined),
and on a legal move pushes the move record, checks the terminal
classifiers, records the result when the game ended, and clears any
pending draw offer. -/
def handleMakeMove (lib : ChessLib) (rating : Rating) (s : SState) (c : Ctx)
    (fromSq toSq promo : Option String) : SState × EvOut :=
  match c.pid, c.gid with
  | some p, some gid =>
    match lookupGame s.games gid with
    | none => (s, ⟨[.errMsg "Invalid game state"], 0⟩)
    | some g =>
      if (lib.turn g.fen = .white ∧ g.white ≠ p) ∨
         (¬ lib.turn g.fen = .white ∧ g.black ≠ some p) then
        (s, ⟨[.errMsg "Not your turn"], 0⟩)
      else
        match lib.move g.fen fromSq toSq (jsStr promo) with
        | none => (s, ⟨[.errMsg "Invalid move"], 0⟩)
        | some fen2 =>
          let mate := lib.isCheckmate fen2
          let drawn := lib.isDraw fen2
          let result : Option GResult :=
            if mate then
              some (if lib.turn g.fen = .white then .whiteWin else .blackWin)
            else if drawn then some .drawRes
            else none
          let g1 : Game :=
            { g with fen := fen2, moves := g.moves ++ [⟨fromSq, toSq, promo⟩],
                     status := if mate || drawn then .completed else g.status,
                     drawOffer := none }
          let s1 := { s with games := setGame s.games gid g1 }
          match result with
          | some r =>
            let rec1 := recordGameResult rating s1 g1 r
            (rec1.1, ⟨[.moveMade true (some r)], if rec1.2 then 1 else 0⟩)
          | none => (s1, ⟨[.moveMade false none], 0⟩)
  | _, _ => (s, ⟨[.errMsg "Invalid game state"], 0⟩)

/-- handleResign: any seat holder may resign at any time; the other seat
wins, the game is marked completed, the result is recorded and GAME_OVER
is broadcast. -/
def handleResign (rating : Rating) (s : SState) (c : Ctx) : SState × EvOut :=
  match c.pid, c.gid with
  | some p, some gid =>
    match lookupGame s.games gid with
    | none => (s, ⟨[.errMsg "Invalid game state"], 0⟩)
    | some g =>
      if g.white ≠ p ∧ g.black ≠ some p then
        (s, ⟨[.errMsg "You are not part of this game"], 0⟩)
      else
        let result : GResult := if g.white = p then .blackWin else .whiteWin
        let g1 := { g with status := GStatus.completed }
        let s1 := { s with games := setGame s.games gid g1 }
        let rec1 := recordGameResult rating s1 g1 result
        (rec1.1, ⟨[.gameOver result "resignation"], if rec1.2 then 1 else 0⟩)
  | _, _ => (s, ⟨[.errMsg "Invalid game state"], 0⟩)

/-- handleDrawOffer: a seat holder records itself as the pending offer
holder; both sides are notified. -/
def handleDrawOffer (s : SState) (c : Ctx) : SState × EvOut :=
  match c.pid, c.gid with
  | some p, some gid =>
    match lookupGame s.games gid with
    | none => (s, ⟨[.errMsg "Invalid game state"], 0⟩)
    | some g =>
      if g.white ≠ p ∧ g.black ≠ some p then
        (s, ⟨[.errMsg "You are not part of this game"], 0⟩)
      else
        let g1 := { g with drawOffer := some p }
        ({ s with games := setGame s.games gid g1 }, ⟨[.drawOffered, .drawOfferSent], 0⟩)
  | _, _ => (s, ⟨[.errMsg "Invalid game state"], 0⟩)

/-- handleAcceptDraw: requires a pending offer from a different identity;
then the game is marked completed, a draw is recorded and GAME_OVER with
reason agreement is broadcast. -/
def handleAcceptDraw (rating : Rating) (s : SState) (c : Ctx) : SState × EvOut :=
  match c.pid, c.gid with
  | some p, some gid =>
    match lookupGame s.games gid with
    | none => (s, ⟨[.errMsg "Invalid game state"], 0⟩)
    | some g =>
      if g.drawOffer = none ∨ g.drawOffer = some p then
        (s, ⟨[.errMsg "No valid draw offer to accept"], 0⟩)
      else
        let g1 := { g with status := GStatus.completed }
        let s1 := { s with games := setGame s.games gid g1 }
        let rec1 := recordGameResult rating s1 g1 .drawRes
        (rec1.1, ⟨[.gameOver .drawRes "agreement"], if rec1.2 then 1 else 0⟩)
  | _, _ => (s, ⟨[.errMsg "Invalid game state"], 0⟩)

/-- handleDeclineDraw: requires a pending offer from a different
identity; the offer is cleared and both sides are notified. -/
def handleDeclineDraw (s : SState) (c : Ctx) : SState × EvOut :=
  match c.pid, c.gid with
  | some p, some gid =>
    match lookupGame s.games gid with
    | none => (s, ⟨[.errMsg "Invalid game state"], 0⟩)
    | some g =>
      if g.drawOffer = none ∨ g.drawOffer = some p then
        (s, ⟨[.errMsg "No valid draw offer to decline"], 0⟩)
      else
        let g1 := { g with drawOffer := none }
        ({ s with games := setGame s.games gid g1 }, ⟨[.drawDeclined, .drawDeclineSent], 0⟩)
  | _, _ => (s, ⟨[.errMsg "Invalid game state"], 0⟩)

/-- One protocol event as it reaches a session handler, carrying the
closure context of the sending connection. -/
inductive Ev where
  | createGame (pid : Option String) (newId : String)
  | joinGame (pid : Option String) (target : Option String)
  | makeMove (c : Ctx) (fromSq toSq promo : Option String)
  | resign (c : Ctx)
  | offerDraw (c : Ctx)
  | acceptDraw (c : Ctx)
  | declineDraw (c : Ctx)
  deriving DecidableEq, Repr

/-- Whether an event is a game creation (which registers a new session). -/
def Ev.isCreate : Ev → Bool
  | .createGame _ _ => true
  | _ => false

/-- Dispatch of one handler-level event. -/
def hstep (lib : ChessLib) (rating : Rating) (s : SState) : Ev → SState × EvOut
  | .createGame pid newId => (handleCreateGame lib s ⟨pid, none⟩ newId).2
  | .joinGame pid target => (handleJoinGame s ⟨pid, none⟩ target).2
  | .makeMove c f t p => handleMakeMove lib rating s c f t p
  | .resign c => handleResign rating s c
  | .offerDraw c => handleDrawOffer s c
  | .acceptDraw c => handleAcceptDraw rating s c
  | .declineDraw c => handleDeclineDraw s c

/-- Processing of a sequence of events, summing recording-branch
invocations. -/
def runEvents (lib : ChessLib) (rating : Rating) (s : SState) : List Ev → SState × Nat
  | [] => (s, 0)
  | e :: rest =>
    let r := hstep lib rating s e
    let r2 := runEvents lib rating r.1 rest
    (r2.1, r.2.records + r2.2)

/-- A parsed inbound message with the fields the dispatcher and the
handlers read from it. -/
structure RawMsg where
  typeF : Option String
  tF : Option String
  username : Option String
  gameId : Option String
  fromF : Option String
  toF : Option String
  promo : Option String
  promotion : Option String
  deriving DecidableEq, Repr

/-- An inbound websocket frame: text that JSON.parse rejects, or a parsed
object. -/
inductive Frame where
  | badJson
  | obj (m : RawMsg)
  deriving DecidableEq, Repr

/-- The websocket message handler of the server: the whole dispatch runs
inside try/catch, so a frame that fails JSON.parse is logged and dropped;
the event type is data.type || data.t; unknown types fall to the default
branch and are logged only. The MOVE compatibility case re-wraps the
fields under payload although handleMakeMove reads the top-level fields,
so the squares arrive absent on that path. fresh stands for the uuid
drawn inside the handlers. -/
def wsMessage (lib : ChessLib) (rating : Rating) (fresh : String) (c : Ctx)
    (s : SState) : Frame → Ctx × SState × EvOut
  | .badJson => (c, s, ⟨[], 0⟩)
  | .obj m =>
    match jsOr m.typeF m.tF with
    | none => (c, s, ⟨[], 0⟩)
    | some ty =>
      if ty = "LOGIN" then
        let r := handleLogin c m.username fresh
        (r.1, s, r.2)
      else if ty = "CREATE_GAME" then
        handleCreateGame lib s c fresh
      else if ty = "JOIN_GAME" then
        handleJoinGame s c m.gameId
      else if ty = "MAKE_MOVE" then
        let r := handleMakeMove lib rating s c m.fromF m.toF m.promotion
        (c, r.1, r.2)
      else if ty = "RESIGN" then
        let r := handleResign rating s c
        (c, r.1, r.2)
      else if ty = "OFFER_DRAW" then
        let r := handleDrawOffer s c
        (c, r.1, r.2)
      else if ty = "ACCEPT_DRAW" then
        let r := handleAcceptDraw rating s c
        (c, r.1, r.2)
      else if ty = "DECLINE_DRAW" then
        let r := handleDeclineDraw s c
        (c, r.1, r.2)
      else if ty = "JOIN" then
        match jsStr m.gameId with
        | some gid => ({ c with gid := some gid }, s, ⟨[], 0⟩)
        | none => (c, s, ⟨[], 0⟩)
      else if ty = "PING" then
        (c, s, ⟨[.pong], 0⟩)
      else if ty = "MOVE" then
        match jsStr m.gameId, jsStr m.fromF, jsStr m.toF with
        | some _, some _, some _ =>
          let r := handleMakeMove lib rating s c none none none
          (c, r.1, r.2)
        | _, _, _ => (c, s, ⟨[], 0⟩)
      else
        (c, s, ⟨[], 0⟩)

/-- Whether an outbound frame is an ERROR frame. -/
def isErr : OutMsg → Bool
  | .errMsg _ => true
  | _ => false

/-- Registry lookup after writing the same key. -/
theorem lookupGame_setGame_self (gs : List (String × Game)) (k : String) (g : Game) :
    lookupGame (setGame gs k g) k = some g := by
  induction gs with
  | nil => simp [setGame, lookupGame]
  | cons hd tl ih =>
    obtain ⟨k2, g2⟩ := hd
    by_cases h : k2 = k
    · simp [setGame, lookupGame, h]
    · simp [setGame, lookupGame, h, ih]

/-- Registry lookup after writing a different key. -/
theorem lookupGame_setGame_ne (gs : List (String × Game)) (k k2 : String) (g : Game)
    (h : k2 ≠ k) : lookupGame (setGame gs k2 g) k = lookupGame gs k := by
  induction gs with
  | nil => simp [setGame, lookupGame, h]
  | cons hd tl ih =>
    obtain ⟨k3, g3⟩ := hd
    by_cases h3 : k3 = k2
    · subst h3
      simp [setGame, lookupGame, h]
    · simp only [setGame, if_neg h3, lookupGame]
      by_cases hk : k3 = k <;> simp [hk, ih]

/-- recordGameResult touches only the database tables, never the games
registry. -/
theorem recordGameResult_games (rating : Rating) (s : SState) (g : Game) (r : GResult) :
    (recordGameResult rating s g r).1.games = s.games := by
  unfold recordGameResult
  cases findUser s.users g.white <;> cases seatUser s.users g.black <;> simp

/-- A fixed trivial instantiation of the rules oracle, used to evaluate
the theorems on concrete inputs: every candidate move is illegal. -/
def lib0 : ChessLib :=
  { initFen := "f0", turn := fun _ => .white, move := fun _ _ _ _ => none,
    isCheckmate := fun _ => false, isDraw := fun _ => false }

/-- A fixed instantiation of the rating engine for concrete evaluation. -/
def rating0 : Rating := fun _ _ _ => (8, -8)

/-- A concrete active game: a on the white seat, b on the black seat. -/
def g0 : Game :=
  { white := "a", whiteConnected := true, black := some "b", blackConnected := true,
    fen := "f0", status := .playing, drawOffer := none, moves := [] }

/-- A concrete server state holding the single active game g0. -/
def s0 : SState := { games := [("g", g0)], users := [], matchRows := [] }

/-- Claim C2: a move submitted by an identity that does not occupy the
seat whose turn it is in the current position is rejected with a Not your
turn error, and the whole server state (position, move history, ply
count) is unchanged. -/
theorem c2_wrong_seat_move_rejected (lib : ChessLib) (rating : Rating) (s : SState)
    (p gid : String) (g : Game) (fromSq toSq promo : Option String)
    (hg : lookupGame s.games gid = some g) (hact : g.status = .playing)
    (hseat : (lib.turn g.fen = .white ∧ g.white ≠ p) ∨
             (lib.turn g.fen = .black ∧ g.black ≠ some p)) :
    handleMakeMove lib rating s ⟨some p, some gid⟩ fromSq toSq promo =
      (s, ⟨[.errMsg "Not your turn"], 0⟩) := by
  unfold handleMakeMove
  simp only [hg]
  rw [if_pos]
  rcases hseat with ⟨h1, h2⟩ | ⟨h1, h2⟩
  · exact Or.inl ⟨h1, h2⟩
  · refine Or.inr ⟨?_, h2⟩
    rw [h1]
    intro hc
    cases hc

/-- Witness for C2 at a concrete input: b moves while white (a) is to
move. -/
theorem c2_witness :
    handleMakeMove lib0 rating0 s0 ⟨some "b", some "g"⟩ (some "e2") (some "e4") none =
      (s0, ⟨[.errMsg "Not your turn"], 0⟩) :=
  c2_wrong_seat_move_rejected lib0 rating0 s0 "b" "g" g0 (some "e2") (some "e4") none
    (by decide) (by decide) (Or.inl ⟨rfl, by decide⟩)

/-- Claim C4: a move event whose candidate move the rules oracle rejects
as illegal in the current position produces an error frame to the
submitter and mutates nothing: the resulting server state is exactly the
previous one. -/
theorem c4_illegal_move_rejected (lib : ChessLib) (rating : Rating) (s : SState)
    (p gid : String) (g : Game) (fromSq toSq promo : Option String)
    (hg : lookupGame s.games gid = some g)
    (hmv : lib.move g.fen fromSq toSq (jsStr promo) = none) :
    (handleMakeMove lib rating s ⟨some p, some gid⟩ fromSq toSq promo).1 = s ∧
    ((handleMakeMove lib rating s ⟨some p, some gid⟩ fromSq toSq promo).2.msgs.any isErr)
      = true := by
  unfold handleMakeMove
  simp only [hg]
  by_cases hc : (lib.turn g.fen = .white ∧ g.white ≠ p) ∨
      (¬ lib.turn g.fen = .white ∧ g.black ≠ some p)
  · rw [if_pos hc]
    exact ⟨rfl, rfl⟩
  · rw [if_neg hc, hmv]
    exact ⟨rfl, rfl⟩

/-- Witness for C4 at a concrete input: the oracle rejects the candidate,
the state is unchanged and an error frame goes back. -/
theorem c4_witness :
    (handleMakeMove lib0 rating0 s0 ⟨some "a", some "g"⟩ (some "x") (some "y") none).1 = s0 ∧
    ((handleMakeMove lib0 rating0 s0 ⟨some "a", some "g"⟩ (some "x") (some "y") none).2.msgs.any
      isErr) = true :=
  c4_illegal_move_rejected lib0 rating0 s0 "a" "g" g0 (some "x") (some "y") none
    (by decide) rfl

/-- Rejection of acceptDraw when no offer is pending. -/
theorem acceptDraw_no_offer (rating : Rating) (s : SState) (q gid : String) (g : Game)
    (hg : lookupGame s.games gid = some g) (hoff : g.drawOffer = none) :
    handleAcceptDraw rating s ⟨some q, some gid⟩ =
      (s, ⟨[.errMsg "No valid draw offer to accept"], 0⟩) := by
  unfold handleAcceptDraw
  simp only [hg]
  rw [if_pos (Or.inl hoff)]

/-- Rejection of declineDraw when no offer is pending. -/
theorem declineDraw_no_offer (s : SState) (q gid : String) (g : Game)
    (hg : lookupGame s.games gid = some g) (hoff : g.drawOffer = none) :
    handleDeclineDraw s ⟨some q, some gid⟩ =
      (s, ⟨[.errMsg "No valid draw offer to decline"], 0⟩) := by
  unfold handleDeclineDraw
  simp only [hg]
  rw [if_pos (Or.inl hoff)]

/-- Claim C5: an acceptDraw event completes the session as a draw with
reason agreement exactly when a pending offer exists whose holder is not
the acceptor; in every other case the event is rejected with an error and
the server state is unchanged. -/
theorem c5_accept_draw (rating : Rating) (s : SState) (p gid : String) (g : Game)
    (hg : lookupGame s.games gid = some g) :
    ((g.drawOffer ≠ none ∧ g.drawOffer ≠ some p) →
      (lookupGame (handleAcceptDraw rating s ⟨some p, some gid⟩).1.games gid).map Game.status
          = some .completed ∧
        OutMsg.gameOver .drawRes "agreement" ∈
          (handleAcceptDraw rating s ⟨some p, some gid⟩).2.msgs) ∧
    ((g.drawOffer = none ∨ g.drawOffer = some p) →
      handleAcceptDraw rating s ⟨some p, some gid⟩ =
        (s, ⟨[.errMsg "No valid draw offer to accept"], 0⟩)) := by
  constructor
  · intro hand
    have hcond : ¬ (g.drawOffer = none ∨ g.drawOffer = some p) := by
      rintro (h | h)
      · exact hand.1 h
      · exact hand.2 h
    unfold handleAcceptDraw
    simp only [hg]
    rw [if_neg hcond]
    constructor
    · simp [recordGameResult_games, lookupGame_setGame_self]
    · simp
  · intro hcond
    unfold handleAcceptDraw
    simp only [hg]
    rw [if_pos hcond]

/-- A concrete game with a pending draw offer from a. -/
def g5 : Game := { g0 with drawOffer := some "a" }

/-- A concrete server state holding g5. -/
def s5 : SState := { games := [("g", g5)], users := [], matchRows := [] }

/-- Witness for C5 at a concrete input: b accepts an offer made by a. -/
theorem c5_witness :
    (lookupGame (handleAcceptDraw rating0 s5 ⟨some "b", some "g"⟩).1.games "g").map Game.status
        = some .completed ∧
      OutMsg.gameOver .drawRes "agreement" ∈
        (handleAcceptDraw rating0 s5 ⟨some "b", some "g"⟩).2.msgs :=
  (c5_accept_draw rating0 s5 "b" "g" g5 (by decide)).1 ⟨by decide, by decide⟩

/-- Claim C6: an accepted move clears any pending draw offer, so that
after the move the stored offer holder is none and a stale acceptDraw or
declineDraw is rejected without touching the state. -/
theorem c6_move_clears_draw_offer (lib : ChessLib) (rating : Rating) (s : SState)
    (p gid : String) (g : Game) (fromSq toSq promo : Option String) (fen2 : String)
    (s2 : SState) (out : EvOut)
    (hg : lookupGame s.games gid = some g)
    (hturn : ¬ ((lib.turn g.fen = .white ∧ g.white ≠ p) ∨
                (¬ lib.turn g.fen = .white ∧ g.black ≠ some p)))
    (hmv : lib.move g.fen fromSq toSq (jsStr promo) = some fen2)
    (hr : handleMakeMove lib rating s ⟨some p, some gid⟩ fromSq toSq promo = (s2, out)) :
    (lookupGame s2.games gid).map Game.drawOffer = some none ∧
    (∀ q : String, handleAcceptDraw rating s2 ⟨some q, some gid⟩ =
       (s2, ⟨[.errMsg "No valid draw offer to accept"], 0⟩)) ∧
    (∀ q : String, handleDeclineDraw s2 ⟨some q, some gid⟩ =
       (s2, ⟨[.errMsg "No valid draw offer to decline"], 0⟩)) := by
  have hkey : ∃ g1, lookupGame s2.games gid = some g1 ∧ g1.drawOffer = none := by
    unfold handleMakeMove at hr
    simp only [hg] at hr
    rw [if_neg hturn, hmv] at hr
    simp only at hr
    split at hr
    · injection hr with h1 h2
      subst h1
      rw [recordGameResult_games]
      exact ⟨_, lookupGame_setGame_self _ _ _, rfl⟩
    · injection hr with h1 h2
      subst h1
      exact ⟨_, lookupGame_setGame_self _ _ _, rfl⟩
  obtain ⟨g1, hl, hoff⟩ := hkey
  refine ⟨by rw [hl]; simp [hoff], ?_, ?_⟩
  · exact fun q => acceptDraw_no_offer rating s2 q gid g1 hl hoff
  · exact fun q => declineDraw_no_offer s2 q gid g1 hl hoff

/-- A rules oracle for concrete evaluation in which the opening move e2
to e4 is legal from the initial position. -/
def libM : ChessLib :=
  { initFen := "f0",
    turn := fun f => if f = "f0" then .white else .black,
    move := fun f a b _ =>
      if f = "f0" ∧ a = some "e2" ∧ b = some "e4" then some "f1" else none,
    isCheckmate := fun _ => false, isDraw := fun _ => false }

/-- A concrete active game with a pending offer from b. -/
def g6 : Game := { g0 with drawOffer := some "b" }

/-- A concrete server state holding g6. -/
def s6 : SState := { games := [("g", g6)], users := [], matchRows := [] }

/-- The stored game after the accepted move: position updated, move
pushed, offer cleared. -/
def g6b : Game :=
  { white := "a", whiteConnected := true, black := some "b", blackConnected := true,
    fen := "f1", status := .playing, drawOffer := none,
    moves := [⟨some "e2", some "e4", none⟩] }

/-- The concrete server state after the accepted move. -/
def s6b : SState := { games := [("g", g6b)], users := [], matchRows := [] }

/-- Witness for C6 at a concrete input: a plays e2 to e4 while an offer
from b is pending; the offer is gone and a stale accept is rejected. -/
theorem c6_witness :
    (lookupGame s6b.games "g").map Game.drawOffer = some none ∧
    handleAcceptDraw rating0 s6b ⟨some "b", some "g"⟩ =
      (s6b, ⟨[.errMsg "No valid draw offer to accept"], 0⟩) := by
  have h := c6_move_clears_draw_offer libM rating0 s6 "a" "g" g6 (some "e2") (some "e4")
    none "f1" s6b ⟨[.moveMade false none], 0⟩ (by decide) (by decide) (by decide) (by decide)
  exact ⟨h.1, h.2.1 "b"⟩

/-- Claim C7: when a session ends in a terminal outcome (resignation,
draw agreement, or a game-ending move - checkmate or rule draw) and
either seat has no row in the users table, the ratings and match history
are left untouched and the recording branch never runs, yet the terminal
notification (GAME_OVER, or MOVE_MADE flagged game over) is still
broadcast. -/
theorem c7_guest_skips_recording (lib : ChessLib) (rating : Rating) (s : SState)
    (p gid : String) (g : Game)
    (hg : lookupGame s.games gid = some g)
    (hguest : findUser s.users g.white = none ∨ seatUser s.users g.black = none) :
    (¬ (g.white ≠ p ∧ g.black ≠ some p) →
      (handleResign rating s ⟨some p, some gid⟩).1.users = s.users ∧
      (handleResign rating s ⟨some p, some gid⟩).1.matchRows = s.matchRows ∧
      (handleResign rating s ⟨some p, some gid⟩).2.records = 0 ∧
      OutMsg.gameOver (if g.white = p then .blackWin else .whiteWin) "resignation" ∈
        (handleResign rating s ⟨some p, some gid⟩).2.msgs) ∧
    (¬ (g.drawOffer = none ∨ g.drawOffer = some p) →
      (handleAcceptDraw rating s ⟨some p, some gid⟩).1.users = s.users ∧
      (handleAcceptDraw rating s ⟨some p, some gid⟩).1.matchRows = s.matchRows ∧
      (handleAcceptDraw rating s ⟨some p, some gid⟩).2.records = 0 ∧
      OutMsg.gameOver .drawRes "agreement" ∈
        (handleAcceptDraw rating s ⟨some p, some gid⟩).2.msgs) ∧
    (∀ (fromSq toSq promo : Option String) (fen2 : String),
      ¬ ((lib.turn g.fen = .white ∧ g.white ≠ p) ∨
         (¬ lib.turn g.fen = .white ∧ g.black ≠ some p)) →
      lib.move g.fen fromSq toSq (jsStr promo) = some fen2 →
      (lib.isCheckmate fen2 || lib.isDraw fen2) = true →
      (handleMakeMove lib rating s ⟨some p, some gid⟩ fromSq toSq promo).1.users = s.users ∧
      (handleMakeMove lib rating s ⟨some p, some gid⟩ fromSq toSq promo).1.matchRows
          = s.matchRows ∧
      (handleMakeMove lib rating s ⟨some p, some gid⟩ fromSq toSq promo).2.records = 0 ∧
      OutMsg.moveMade true
          (some (if lib.isCheckmate fen2 then
              (if lib.turn g.fen = .white then GResult.whiteWin else GResult.blackWin)
            else GResult.drawRes)) ∈
        (handleMakeMove lib rating s ⟨some p, some gid⟩ fromSq toSq promo).2.msgs) := by
  refine ⟨?_, ?_, ?_⟩
  · intro hpart
    unfold handleResign
    simp only [hg]
    rw [if_neg hpart]
    unfold recordGameResult
    rcases hguest with h | h
    · simp [h]
    · cases hw : findUser s.users g.white <;> simp [hw, h]
  · intro hoff
    unfold handleAcceptDraw
    simp only [hg]
    rw [if_neg hoff]
    unfold recordGameResult
    rcases hguest with h | h
    · simp [h]
    · cases hw : findUser s.users g.white <;> simp [hw, h]
  · intro fromSq toSq promo fen2 hturn hmv hterm
    unfold handleMakeMove
    simp only [hg]
    rw [if_neg hturn, hmv]
    dsimp only
    by_cases hmate : lib.isCheckmate fen2 = true
    · simp only [hmate, if_true]
      unfold recordGameResult
      rcases hguest with h | h
      · simp [h]
      · cases hw : findUser s.users g.white <;> simp [hw, h]
    · rw [Bool.not_eq_true] at hmate
      have hdrawn : lib.isDraw fen2 = true := by
        rw [hmate] at hterm
        simpa using hterm
      simp only [hmate, hdrawn]
      unfold recordGameResult
      rcases hguest with h | h
      · simp [h]
      · cases hw : findUser s.users g.white <;> simp [hw, h]

/-- A concrete active game between players who have no user rows. -/
def s7 : SState := { games := [("g", g0)], users := [⟨1, "z", 1200⟩], matchRows := [] }

/-- Witness for C7 at a concrete input: b resigns, neither a nor b is
registered, nothing is recorded but GAME_OVER is broadcast. -/
theorem c7_witness :
    (handleResign rating0 s7 ⟨some "b", some "g"⟩).1.users = s7.users ∧
    (handleResign rating0 s7 ⟨some "b", some "g"⟩).1.matchRows = s7.matchRows ∧
    (handleResign rating0 s7 ⟨some "b", some "g"⟩).2.records = 0 ∧
    OutMsg.gameOver (if g0.white = "b" then .blackWin else .whiteWin) "resignation" ∈
      (handleResign rating0 s7 ⟨some "b", some "g"⟩).2.msgs :=
  (c7_guest_skips_recording lib0 rating0 s7 "b" "g" g0 (by decide)
    (Or.inl (by decide))).1 (by decide)

/-- Structural description of every non-create event: either the games
registry is untouched, or exactly one existing entry is rewritten, with
the white seat preserved, the black seat preserved unless the entry was
still waiting, and the completed status preserved. -/
theorem hstep_games_cases (lib : ChessLib) (rating : Rating) (s : SState) (e : Ev)
    (hnc : e.isCreate = false) :
    (hstep lib rating s e).1.games = s.games ∨
    ∃ gid2 g2 g1, lookupGame s.games gid2 = some g2 ∧
      (hstep lib rating s e).1.games = setGame s.games gid2 g1 ∧
      g1.white = g2.white ∧
      (g1.black = g2.black ∨ g2.status = .waiting) ∧
      (g2.status = .completed → g1.status = .completed) := by
  cases e with
  | createGame pid newId => simp [Ev.isCreate] at hnc
  | joinGame pid target =>
    cases pid with
    | none => exact Or.inl rfl
    | some p =>
      cases target with
      | none => exact Or.inl rfl
      | some gid2 =>
        simp only [hstep, handleJoinGame]
        cases hl : lookupGame s.games gid2 with
        | none => exact Or.inl rfl
        | some g2 =>
          dsimp only
          by_cases hstw : g2.status ≠ .waiting
          · rw [if_pos hstw]
            exact Or.inl rfl
          · rw [if_neg hstw]
            by_cases hwp : g2.white = p
            · rw [if_pos hwp]
              exact Or.inl rfl
            · rw [if_neg hwp]
              have hw : g2.status = .waiting := not_ne_iff.mp hstw
              refine Or.inr ⟨gid2, g2,
                { g2 with black := some p, blackConnected := true,
                          status := GStatus.playing },
                hl, rfl, rfl, Or.inr hw, ?_⟩
              intro h
              rw [hw] at h
              cases h
  | makeMove c f t pr =>
    obtain ⟨pid, gid⟩ := c
    cases pid with
    | none => exact Or.inl rfl
    | some p =>
      cases gid with
      | none => exact Or.inl rfl
      | some gid2 =>
        simp only [hstep, handleMakeMove]
        cases hl : lookupGame s.games gid2 with
        | none => exact Or.inl rfl
        | some g2 =>
          dsimp only
          by_cases ht : (lib.turn g2.fen = .white ∧ g2.white ≠ p) ∨
              (¬ lib.turn g2.fen = .white ∧ g2.black ≠ some p)
          · rw [if_pos ht]
            exact Or.inl rfl
          · rw [if_neg ht]
            cases hm : lib.move g2.fen f t (jsStr pr) with
            | none => exact Or.inl rfl
            | some fen2 =>
              dsimp only
              refine Or.inr ⟨gid2, g2,
                { g2 with fen := fen2, moves := g2.moves ++ [⟨f, t, pr⟩],
                          status := if lib.isCheckmate fen2 || lib.isDraw fen2 then
                            .completed else g2.status,
                          drawOffer := none },
                hl, ?_, rfl, Or.inl rfl, ?_⟩
              · split <;> simp [recordGameResult_games]
              · intro h
                simp only [h]
                split <;> rfl
  | resign c =>
    obtain ⟨pid, gid⟩ := c
    cases pid with
    | none => exact Or.inl rfl
    | some p =>
      cases gid with
      | none => exact Or.inl rfl
      | some gid2 =>
        simp only [hstep, handleResign]
        cases hl : lookupGame s.games gid2 with
        | none => exact Or.inl rfl
        | some g2 =>
          dsimp only
          by_cases hw : g2.white ≠ p ∧ g2.black ≠ some p
          · rw [if_pos hw]
            exact Or.inl rfl
          · rw [if_neg hw]
            refine Or.inr ⟨gid2, g2, { g2 with status := GStatus.completed },
              hl, ?_, rfl, Or.inl rfl, fun _ => rfl⟩
            simp [recordGameResult_games]
  | offerDraw c =>
    obtain ⟨pid, gid⟩ := c
    cases pid with
    | none => exact Or.inl rfl
    | some p =>
      cases gid with
      | none => exact Or.inl rfl
      | some gid2 =>
        simp only [hstep, handleDrawOffer]
        cases hl : lookupGame s.games gid2 with
        | none => exact Or.inl rfl
        | some g2 =>
          dsimp only
          by_cases hw : g2.white ≠ p ∧ g2.black ≠ some p
          · rw [if_pos hw]
            exact Or.inl rfl
          · rw [if_neg hw]
            exact Or.inr ⟨gid2, g2, { g2 with drawOffer := some p },
              hl, rfl, rfl, Or.inl rfl, fun h => h⟩
  | acceptDraw c =>
    obtain ⟨pid, gid⟩ := c
    cases pid with
    | none => exact Or.inl rfl
    | some p =>
      cases gid with
      | none => exact Or.inl rfl
      | some gid2 =>
        simp only [hstep, handleAcceptDraw]
        cases hl : lookupGame s.games gid2 with
        | none => exact Or.inl rfl
        | some g2 =>
          dsimp only
          by_cases hoff : g2.drawOffer = none ∨ g2.drawOffer = some p
          · rw [if_pos hoff]
            exact Or.inl rfl
          · rw [if_neg hoff]
            refine Or.inr ⟨gid2, g2, { g2 with status := GStatus.completed },
              hl, ?_, rfl, Or.inl rfl, fun _ => rfl⟩
            simp [recordGameResult_games]
  | declineDraw c =>
    obtain ⟨pid, gid⟩ := c
    cases pid with
    | none => exact Or.inl rfl
    | some p =>
      cases gid with
      | none => exact Or.inl rfl
      | some gid2 =>
        simp only [hstep, handleDeclineDraw]
        cases hl : lookupGame s.games gid2 with
        | none => exact Or.inl rfl
        | some g2 =>
          dsimp only
          by_cases hoff : g2.drawOffer = none ∨ g2.drawOffer = some p
          · rw [if_pos hoff]
            exact Or.inl rfl
          · rw [if_neg hoff]
            exact Or.inr ⟨gid2, g2, { g2 with drawOffer := none },
              hl, rfl, rfl, Or.inl rfl, fun h => h⟩

/-- A completed game between the registered players a and b. -/
def gDone : Game := { g0 with status := .completed }

/-- Server state used by the counterexamples: both seats registered. -/
def sR : SState :=
  { games := [("g", g0)], users := [⟨1, "a", 1200⟩, ⟨2, "b", 1200⟩], matchRows := [] }

/-- Server state with the completed game and both seats registered. -/
def sDone : SState :=
  { games := [("g", gDone)], users := [⟨1, "a", 1200⟩, ⟨2, "b", 1200⟩], matchRows := [] }

/-- Counterexample to C1 as stated: delivering resign twice to the same
session runs the rating engine and the result recorder twice; there is no
per-session one-shot guard, so the invocation count over this event
sequence is not at most one. -/
theorem c1_counterexample :
    ¬ ((runEvents lib0 rating0 sR
        [Ev.resign ⟨some "a", some "g"⟩, Ev.resign ⟨some "a", some "g"⟩]).2 ≤ 1) := by
  decide

/-- Claim C1 as amended: the rating engine and result recorder are
invoked at most once per terminal-triggering event (each handler calls
recordGameResult at most once), not at most once per session. -/
theorem c1_amended (lib : ChessLib) (rating : Rating) (s : SState) (e : Ev) :
    (hstep lib rating s e).2.records ≤ 1 := by
  cases e <;>
    simp only [hstep, handleCreateGame, handleJoinGame, handleMakeMove, handleResign,
      handleDrawOffer, handleAcceptDraw, handleDeclineDraw] <;>
    (repeat' split) <;> simp

/-- Counterexample to C3 as stated: a resign delivered to a session whose
status is already completed is not rejected with a session-finished
error; it broadcasts GAME_OVER again, runs the recorder again and changes
the state. -/
theorem c3_counterexample :
    (hstep lib0 rating0 sDone (Ev.resign ⟨some "a", some "g"⟩)).2 =
      ⟨[.gameOver .blackWin "resignation"], 1⟩ ∧
    (hstep lib0 rating0 sDone (Ev.resign ⟨some "a", some "g"⟩)).1 ≠ sDone := by
  decide

/-- Claim C3 as amended: the completed status itself is permanent - no
later move, resign or draw event ever reverts it - but such events are
not rejected: the handlers process them normally (and can re-run the
result handoff). -/
theorem c3_amended (lib : ChessLib) (rating : Rating) (s : SState) (e : Ev)
    (gid : String) (g : Game) (hnc : e.isCreate = false)
    (hg : lookupGame s.games gid = some g) (hdone : g.status = .completed) :
    (lookupGame (hstep lib rating s e).1.games gid).map Game.status = some .completed := by
  rcases hstep_games_cases lib rating s e hnc with h | ⟨gid2, g2, g1, hl2, hset, hw, hb, hst⟩
  · rw [h, hg]
    simp [hdone]
  · rw [hset]
    by_cases hk : gid2 = gid
    · subst hk
      rw [hl2] at hg
      injection hg with hg
      subst hg
      rw [lookupGame_setGame_self]
      simp [hst hdone]
    · rw [lookupGame_setGame_ne _ _ _ _ hk, hg]
      simp [hdone]

/-- Witness for the amended C3 at a concrete input: an offerDraw on the
completed session leaves the status completed. -/
theorem c3_amended_witness :
    (lookupGame (hstep lib0 rating0 sDone (Ev.offerDraw ⟨some "a", some "g"⟩)).1.games
      "g").map Game.status = some .completed :=
  c3_amended lib0 rating0 sDone (Ev.offerDraw ⟨some "a", some "g"⟩) "g" gDone
    rfl (by decide) rfl

/-- Claim C8: inbound frames that fail JSON parsing, carry an unknown
event type, or carry a known type with its fields missing are logged and
ignored without touching any session: the dispatcher (whose whole body
runs inside try/catch) returns normally with the server state unchanged.
The oracle hypothesis says a move with absent squares is never legal. -/
theorem c8_malformed_frames_ignored (lib : ChessLib) (rating : Rating) (fresh : String)
    (c : Ctx) (s : SState)
    (hmv : ∀ fen promo, lib.move fen none none promo = none) :
    (wsMessage lib rating fresh c s .badJson = (c, s, ⟨[], 0⟩)) ∧
    (∀ m : RawMsg, jsOr m.typeF m.tF = none →
      wsMessage lib rating fresh c s (.obj m) = (c, s, ⟨[], 0⟩)) ∧
    (∀ (m : RawMsg) (ty : String), jsOr m.typeF m.tF = some ty →
      ty ∉ (["LOGIN", "CREATE_GAME", "JOIN_GAME", "MAKE_MOVE", "RESIGN", "OFFER_DRAW",
             "ACCEPT_DRAW", "DECLINE_DRAW", "JOIN", "PING", "MOVE"] : List String) →
      wsMessage lib rating fresh c s (.obj m) = (c, s, ⟨[], 0⟩)) ∧
    (∀ m : RawMsg, jsOr m.typeF m.tF = some "MAKE_MOVE" → m.fromF = none → m.toF = none →
      (wsMessage lib rating fresh c s (.obj m)).2.1 = s) := by
  refine ⟨rfl, ?_, ?_, ?_⟩
  · intro m h
    unfold wsMessage
    dsimp only
    rw [h]
  · intro m ty h hnot
    simp only [List.mem_cons, List.not_mem_nil, or_false, not_or] at hnot
    obtain ⟨h1, h2, h3, h4, h5, h6, h7, h8, h9, h10, h11⟩ := hnot
    unfold wsMessage
    dsimp only
    rw [h]
    dsimp only
    rw [if_neg h1, if_neg h2, if_neg h3, if_neg h4, if_neg h5, if_neg h6, if_neg h7,
      if_neg h8, if_neg h9, if_neg h10, if_neg h11]
  · intro m h hf ht0
    unfold wsMessage
    dsimp only
    rw [h]
    dsimp only
    rw [if_neg (by decide), if_neg (by decide), if_neg (by decide), if_pos rfl, hf, ht0]
    show (handleMakeMove lib rating s c none none m.promotion).1 = s
    unfold handleMakeMove
    obtain ⟨pid, gid⟩ := c
    cases pid with
    | none => cases gid <;> rfl
    | some p =>
      cases gid with
      | none => rfl
      | some gid2 =>
        dsimp only
        cases hl : lookupGame s.games gid2 with
        | none => rfl
        | some g2 =>
          dsimp only
          by_cases ht : (lib.turn g2.fen = .white ∧ g2.white ≠ p) ∨
              (¬ lib.turn g2.fen = .white ∧ g2.black ≠ some p)
          · rw [if_pos ht]
          · rw [if_neg ht, hmv g2.fen (jsStr m.promotion)]

/-- A connection that has not logged in or joined anything. -/
def c0 : Ctx := ⟨none, none⟩

/-- A parsed frame with an unknown event type and no other fields. -/
def m0 : RawMsg := ⟨some "BOGUS", none, none, none, none, none, none, none⟩

/-- Witness for C8 at concrete inputs: an unparsable frame and an
unknown-type frame both leave connection and server state unchanged. -/
theorem c8_witness :
    wsMessage lib0 rating0 "u" c0 s0 .badJson = (c0, s0, ⟨[], 0⟩) ∧
    wsMessage lib0 rating0 "u" c0 s0 (.obj m0) = (c0, s0, ⟨[], 0⟩) := by
  have h := c8_malformed_frames_ignored lib0 rating0 "u" c0 s0 (fun _ _ => rfl)
  exact ⟨h.1, h.2.2.1 m0 "BOGUS" rfl (by decide)⟩

/-- Claim C9: every ratings state reachable through the write paths of
the code (registration with the schema default 1200 and the
GREATEST(0, elo + delta) update used by match recording and the manual
elo route) contains only non-negative ratings. -/
theorem c9_elo_nonneg (u : List UserRow) (h : ReachableUsers u) :
    ∀ r ∈ u, 0 ≤ r.elo := by
  induction h with
  | empty =>
    intro r hr
    cases hr
  | register u2 uid0 name hu ih =>
    intro r hr
    rw [registerUser, List.mem_append] at hr
    rcases hr with hr | hr
    · exact ih r hr
    · rw [List.mem_singleton] at hr
      subst hr
      norm_num
  | eloUpdate u2 uid0 delta hu ih =>
    intro r hr
    rw [applyEloUpdate, List.mem_map] at hr
    obtain ⟨r0, hr0, heq⟩ := hr
    by_cases hid : r0.uid = uid0
    · rw [← heq]
      simp [hid]
    · rw [← heq]
      simp only [if_neg hid]
      exact ih r0 hr0

/-- Witness for C9 at a concrete input: register a user, apply a -5000
manual update; the stored rating is clamped at 0 and stays non-negative. -/
theorem c9_witness : 0 ≤ (UserRow.mk 1 "a" 0).elo :=
  c9_elo_nonneg (applyEloUpdate (registerUser [] 1 "a") 1 (-5000))
    (ReachableUsers.eloUpdate (registerUser [] 1 "a") 1 (-5000)
      (ReachableUsers.register [] 1 "a" ReachableUsers.empty))
    (UserRow.mk 1 "a" 0) (by decide)

/-- Claim C10: seat assignment is deterministic and immutable: the
creator always takes the white seat with the black seat empty, the joiner
always takes the black seat with the creator still on white, and no later
non-create event ever changes the white seat or an occupied black seat
of a session (game ids of newly created sessions are fresh). -/
theorem c10_seat_assignment (lib : ChessLib) (rating : Rating) :
    (∀ (s : SState) (c : Ctx) (p newId : String), c.pid = some p →
      (lookupGame (handleCreateGame lib s c newId).2.1.games newId).map Game.white
          = some p ∧
        (lookupGame (handleCreateGame lib s c newId).2.1.games newId).map Game.black
          = some none) ∧
    (∀ (s : SState) (c : Ctx) (p gid : String) (g : Game), c.pid = some p →
      lookupGame s.games gid = some g → g.status = .waiting → g.white ≠ p →
      (lookupGame (handleJoinGame s c (some gid)).2.1.games gid).map Game.white
          = some g.white ∧
        (lookupGame (handleJoinGame s c (some gid)).2.1.games gid).map Game.black
          = some (some p)) ∧
    (∀ (s : SState) (e : Ev) (gid : String) (g : Game), e.isCreate = false →
      lookupGame s.games gid = some g →
      (lookupGame (hstep lib rating s e).1.games gid).map Game.white = some g.white ∧
      (∀ b : String, g.black = some b → g.status ≠ .waiting →
        (lookupGame (hstep lib rating s e).1.games gid).map Game.black
          = some (some b))) := by
  refine ⟨?_, ?_, ?_⟩
  · intro s c p newId hc
    unfold handleCreateGame
    rw [hc]
    dsimp only
    rw [lookupGame_setGame_self]
    exact ⟨rfl, rfl⟩
  · intro s c p gid g hc hg hst hwp
    unfold handleJoinGame
    rw [hc]
    dsimp only
    rw [hg]
    dsimp only
    rw [if_neg (fun hx => hx hst), if_neg hwp]
    dsimp only
    rw [lookupGame_setGame_self]
    exact ⟨rfl, rfl⟩
  · intro s e gid g hnc hg
    rcases hstep_games_cases lib rating s e hnc with h | ⟨gid2, g2, g1, hl2, hset, hww, hbb, hss⟩
    · rw [h, hg]
      exact ⟨rfl, fun b hb _ => by simp [hb]⟩
    · rw [hset]
      by_cases hk : gid2 = gid
      · subst hk
        rw [hl2] at hg
        injection hg with hg
        subst hg
        rw [lookupGame_setGame_self]
        refine ⟨by simp [hww], ?_⟩
        intro b hb hw2
        rcases hbb with hbb | hbb
        · simp [hbb, hb]
        · exact absurd hbb hw2
      · rw [lookupGame_setGame_ne _ _ _ _ hk, hg]
        exact ⟨rfl, fun b hb _ => by simp [hb]⟩

/-- A connection logged in as a. -/
def cA : Ctx := ⟨some "a", none⟩

/-- Witness for C10 at a concrete input: a creates a session and lands on
the white seat with the black seat empty. -/
theorem c10_witness :
    (lookupGame (handleCreateGame lib0 s0 cA "g9").2.1.games "g9").map Game.white
        = some "a" ∧
      (lookupGame (handleCreateGame lib0 s0 cA "g9").2.1.games "g9").map Game.black
        = some none :=
  (c10_seat_assignment lib0 rating0).1 s0 cA "a" "g9" rfl

end SC
